import Mathlib

/-!
Verification of the task-tracker backend (Express + Prisma + jsonwebtoken +
bcrypt).  The definitions below are a shallow embedding of the backend source:

* `src/backend/src/services/auth.service.ts`  — `signJwt`, `registerService`,
  `authService`, `verifyJwtService`;
* `src/backend/src/services/task.service.ts`  — `getTasksService`,
  `createTaskService`, `updateTaskService`, `deleteTaskService`;
* `src/backend/src/controllers/auth.controller.ts` — `register`, `authenticate`;
* `src/backend/src/controllers/task.controller.ts` — `verifyAuth` middleware and
  the `getTasks`/`createTask`/`updateTask`/`deleteTask` handlers (the current
  version of the file: the one importing the zod schemas from `shared`);
* the zod schemas of the `shared` package (`registerSchema`,
  `authenticateSchema`, `getTasksSchema`, `createTaskSchema`,
  `updateTaskSchema`, `updateTaskParamsSchema`, `deleteTaskSchema`).

Modelling conventions:

* The Prisma store is a pure value (`Store`): lists of user and task rows plus
  counters modelling `@default(uuid())` id generation.  Prisma-managed
  timestamps (`createdAt`/`updatedAt`) are not touched by any service logic and
  are omitted from the rows.
* bcrypt is modelled deterministically: the digest is an injective tagging of
  the plaintext (`bcryptHash`), and `bcryptCompare` succeeds exactly on the
  matching plaintext.  Salt randomness is abstracted away; no claim depends
  on it.
* RSA-signed JWTs are modelled as records carrying claims, the algorithm and a
  signature blob; a signature verifies against a public key exactly when it was
  produced by `mkSig` with the matching private key (`sigOk`).
* Thrown JS exceptions become `Except` errors; `async` functions that can
  reject are `Except`-valued.  A JS value that may be `undefined` becomes an
  `Option`.
* Handlers are instrumented with an effect trace (`Eff`) recording which
  service/store operations were invoked, so that statements of the form "the
  service function is never invoked" are expressible.
-/

namespace TaskApp

/-- A `users` table row (Prisma model `User`; timestamps omitted, see header). -/
structure User where
  id : String
  username : String
  password : String
deriving DecidableEq, Repr

/-- A `tasks` table row (Prisma model `Task`; timestamps omitted, see header). -/
structure Task where
  id : String
  title : String
  description : Option String
  isComplete : Bool
  userId : String
deriving DecidableEq, Repr

/-- The durable store: the two Prisma tables plus counters modelling
`@default(uuid())` id generation for each table. -/
structure Store where
  users : List User
  tasks : List Task
  nextUserId : Nat := 0
  nextTaskId : Nat := 0
deriving DecidableEq, Repr

/-- `prisma.user.findUnique({ where: { username } })`. -/
def findUserByUsername (s : Store) (username : String) : Option User :=
  s.users.find? (fun u => u.username == username)

/-- `prisma.user.findUnique({ where: { id } })`. -/
def findUserById (s : Store) (id : String) : Option User :=
  s.users.find? (fun u => u.id == id)

/-- `prisma.task.findUnique`-style lookup by task id (used to state when a
`prisma.task.update`/`delete` succeeds). -/
def findTaskById (s : Store) (id : String) : Option Task :=
  s.tasks.find? (fun t => t.id == id)

/-- Fresh id for a new `users` row (model of `@default(uuid())`). -/
def genUserId (s : Store) : String :=
  "user-" ++ toString s.nextUserId

/-- Fresh id for a new `tasks` row (model of `@default(uuid())`). -/
def genTaskId (s : Store) : String :=
  "task-" ++ toString s.nextTaskId

/-- Deterministic model of `bcrypt.hash(password, 10)`: an injective tagging of
the plaintext.  Salt randomness is abstracted away. -/
def bcryptHash (password : String) : String :=
  "bcrypt10$" ++ password

/-- Model of `bcrypt.compare(plain, digest)`: succeeds exactly on the digest of
the same plaintext. -/
def bcryptCompare (plain digest : String) : Bool :=
  digest == bcryptHash plain

/-- JWT payload as produced by `jwt.sign({ sub: user.id }, ..., { expiresIn: '1h' })`:
the subject and the expiry timestamp (seconds). -/
structure JwtClaims where
  sub : String
  exp : Nat
deriving DecidableEq, Repr

/-- JWT signing algorithms relevant to the code (`RS256` is the only accepted
one; any other constructor stands for a different algorithm). -/
inductive Alg where
  | RS256
  | HS256
deriving DecidableEq, Repr

/-- A JWT: claims, the algorithm named in its header, and the signature blob. -/
structure Token where
  claims : JwtClaims
  alg : Alg
  sig : String
deriving DecidableEq, Repr

/-- The RSA key pair loaded once at process start from `private.pem` /
`public.pem`. -/
structure KeyPair where
  priv : String
  pub : String
deriving DecidableEq, Repr

def algName : Alg → String
  | .RS256 => "RS256"
  | .HS256 => "HS256"

/-- Model of producing an RSA signature over the encoded header and payload
with the private key. -/
def mkSig (priv : String) (alg : Alg) (claims : JwtClaims) : String :=
  priv ++ "|" ++ algName alg ++ "|" ++ claims.sub ++ "|" ++ toString claims.exp

/-- Model of RSA signature verification: a token's signature verifies against
the key pair exactly when it was produced with the pair's private key. -/
def sigOk (kp : KeyPair) (t : Token) : Bool :=
  t.sig == mkSig kp.priv t.alg t.claims

/-- Errors thrown by the jsonwebtoken library and by `signJwt`. -/
inductive JwtError where
  | invalidUserObject
  | invalidAlgorithm
  | invalidSignature
  | tokenExpired
deriving DecidableEq, Repr

/-- `signJwt` (auth.service.ts): throws on a missing/empty user id, otherwise
signs `{ sub: user.id }` with RS256 and a one-hour expiry. -/
def signJwt (kp : KeyPair) (now : Nat) (userId : String) : Except JwtError Token :=
  if userId = "" then
    .error .invalidUserObject
  else
    let claims : JwtClaims := { sub := userId, exp := now + 3600 }
    .ok { claims := claims, alg := .RS256, sig := mkSig kp.priv .RS256 claims }

/-- `jwt.verify(token, publicKey, { algorithms: ['RS256'] })`: rejects any
algorithm other than RS256, rejects a signature not made with the matching
private key, rejects an elapsed expiry; otherwise returns the decoded claims. -/
def jwtVerify (kp : KeyPair) (now : Nat) (t : Token) : Except JwtError JwtClaims :=
  if t.alg ≠ .RS256 then
    .error .invalidAlgorithm
  else if ¬ sigOk kp t then
    .error .invalidSignature
  else if t.claims.exp ≤ now then
    .error .tokenExpired
  else
    .ok t.claims

/-- The `SignedUser` projection returned by the auth service: id and username
with the token, never the password hash. -/
structure SignedUser where
  id : String
  username : String
  token : Token
deriving DecidableEq, Repr

/-- `verifyJwtService` (auth.service.ts): verifies the token (propagating the
jsonwebtoken throw), then resolves the subject in the store; `undefined` when
the referenced user no longer exists. -/
def verifyJwtService (kp : KeyPair) (now : Nat) (s : Store) (t : Token) :
    Except JwtError (Option SignedUser) :=
  match jwtVerify kp now t with
  | .error e => .error e
  | .ok claims =>
    match findUserById s claims.sub with
    | none => .ok none
    | some u => .ok (some { id := u.id, username := u.username, token := t })

/-- Effects recorded while a controller runs: which password-hashing and
service/store operations were invoked.  This instrumentation makes statements
of the form "the service is never invoked" expressible. -/
inductive Eff where
  | hashPassword
  | createUserRow
  | callGetTasksService
  | callCreateTaskService
  | callUpdateTaskService
  | callDeleteTaskService
deriving DecidableEq, Repr

/-- The special characters accepted by the registration password schema:
`[!@#$%^&*(),.?":{}|<>]` (the braces are written via their code points). -/
def specialChars : List Char :=
  ['!', '@', '#', '$', '%', '^', '&', '*', '(', ')', ',', '.', '?', '"',
   ':', '|', '<', '>', Char.ofNat 123, Char.ofNat 125]

/-- The username constraints shared by `registerSchema` and
`authenticateSchema` (shared zod schemas): 3–30 characters, each a letter, a
digit or an underscore.  The trailing `.trim()` transform is the identity on
any string accepted by the charset regex, so it is dropped. -/
def validUsername (s : String) : Bool :=
  3 ≤ s.length && s.length ≤ 30 && s.data.all (fun c => c.isAlphanum || c == '_')

/-- The password constraints of `registerSchema`: 8–100 characters, at least
one digit, one special character, one uppercase and one lowercase letter. -/
def validRegisterPassword (s : String) : Bool :=
  8 ≤ s.length && s.length ≤ 100 &&
    s.data.any (·.isDigit) &&
    s.data.any (fun c => specialChars.contains c) &&
    s.data.any (·.isUpper) &&
    s.data.any (·.isLower)

/-- The password constraints of `authenticateSchema`: only the length bounds. -/
def validAuthPassword (s : String) : Bool :=
  8 ≤ s.length && s.length ≤ 100

/-- A JSON request body for the two auth endpoints: each field is present or
absent. -/
structure AuthBody where
  username : Option String := none
  password : Option String := none
deriving DecidableEq, Repr

/-- `registerSchema.parse(req.body)`: requires both fields present and the
register constraints satisfied; throws (`none`) otherwise. -/
def parseRegisterBody (b : AuthBody) : Option (String × String) :=
  match b.username, b.password with
  | some un, some pw =>
    if validUsername un && validRegisterPassword pw then some (un, pw) else none
  | _, _ => none

/-- `authenticateSchema.parse(req.body)`: both fields present, username
constraints and password length bounds satisfied. -/
def parseAuthBody (b : AuthBody) : Option (String × String) :=
  match b.username, b.password with
  | some un, some pw =>
    if validUsername un && validAuthPassword pw then some (un, pw) else none
  | _, _ => none

/-- `registerService` (auth.service.ts): look up the username; if taken,
return `undefined` without hashing or writing; otherwise hash the password,
persist the new row, sign a token for the new id and return the projection. -/
def registerService (kp : KeyPair) (now : Nat) (s : Store)
    (username password : String) :
    Except JwtError (Option SignedUser) × Store × List Eff :=
  match findUserByUsername s username with
  | some _ => (.ok none, s, [])
  | none =>
    let hashed := bcryptHash password
    let uid := genUserId s
    let user : User := { id := uid, username := username, password := hashed }
    let s' : Store :=
      { s with users := s.users ++ [user], nextUserId := s.nextUserId + 1 }
    match signJwt kp now uid with
    | .error e => (.error e, s', [.hashPassword, .createUserRow])
    | .ok t =>
      (.ok (some { id := uid, username := username, token := t }), s',
        [.hashPassword, .createUserRow])

/-- `authService` (auth.service.ts): look up the username (`undefined` when
absent), compare the password against the stored digest (`undefined` on
mismatch), otherwise sign a fresh token and return the projection. -/
def authService (kp : KeyPair) (now : Nat) (s : Store)
    (username password : String) : Except JwtError (Option SignedUser) :=
  match findUserByUsername s username with
  | none => .ok none
  | some user =>
    if bcryptCompare password user.password then
      match signJwt kp now user.id with
      | .error e => .error e
      | .ok t => .ok (some { id := user.id, username := user.username, token := t })
    else
      .ok none

/-- An HTTP response: status code and JSON body. -/
inductive RespBody where
  | errorMsg (msg : String)
  | taskList (ts : List Task)
  | task (t : Task)
  | signedUser (su : SignedUser)
deriving DecidableEq, Repr

abbrev Response := Nat × RespBody

/-- `register` controller (auth.controller.ts, POST /auth/register): parse the
body against `registerSchema` (400 on failure), call `registerService`, map
`undefined` to 409 and a thrown error to the catch-all 400; 201 with the
signed user on success. -/
def register (kp : KeyPair) (now : Nat) (s : Store) (b : AuthBody) :
    Response × Store × List Eff :=
  match parseRegisterBody b with
  | none => ((400, .errorMsg "Invalid request"), s, [])
  | some (un, pw) =>
    match registerService kp now s un pw with
    | (.error _, s', effs) => ((400, .errorMsg "Invalid request"), s', effs)
    | (.ok none, s', effs) => ((409, .errorMsg "User already exists"), s', effs)
    | (.ok (some su), s', effs) => ((201, .signedUser su), s', effs)

/-- `authenticate` controller (auth.controller.ts, POST /auth/login): parse
the body against `authenticateSchema` (400 on failure), call `authService`,
map `undefined` to the generic 400 failure and a thrown error to the
catch-all 400; 200 with the signed user on success. -/
def authenticate (kp : KeyPair) (now : Nat) (s : Store) (b : AuthBody) :
    Response :=
  match parseAuthBody b with
  | none => (400, .errorMsg "Invalid request")
  | some (un, pw) =>
    match authService kp now s un pw with
    | .error _ => (400, .errorMsg "Invalid request")
    | .ok none => (400, .errorMsg "Failed to authenticate user")
    | .ok (some su) => (200, .signedUser su)

/-- Errors thrown by a Prisma store operation on a missing row
(`prisma.task.update`/`delete` on an id with no matching record). -/
inductive StoreError where
  | recordNotFound
deriving DecidableEq, Repr

/-- `getTasksService` (task.service.ts):
`prisma.task.findMany({ where: { userId } })`, in insertion order. -/
def getTasksService (s : Store) (userId : String) : List Task :=
  s.tasks.filter (fun t => t.userId == userId)

/-- `createTaskService` (task.service.ts): `prisma.task.create` with the
given owner, title and optional description; `isComplete` defaults to
`false`, the id is store-generated. -/
def createTaskService (s : Store) (userId title : String)
    (description : Option String) : Task × Store :=
  let t : Task :=
    { id := genTaskId s, title := title, description := description,
      isComplete := false, userId := userId }
  (t, { s with tasks := s.tasks ++ [t], nextTaskId := s.nextTaskId + 1 })

/-- The partial update accepted by `updateTaskService`:
`{ title?, description?, isComplete? }`.  An absent field (`none`) is left
unchanged by `prisma.task.update`. -/
structure TaskPatch where
  title : Option String := none
  description : Option String := none
  isComplete : Option Bool := none
deriving DecidableEq, Repr

/-- Applying a partial update to a row: present fields overwrite, absent
fields are untouched (`undefined` means "do nothing" for Prisma). -/
def applyPatch (t : Task) (p : TaskPatch) : Task :=
  { t with
    title := p.title.getD t.title,
    description := match p.description with
      | none => t.description
      | some d => some d,
    isComplete := p.isComplete.getD t.isComplete }

/-- `updateTaskService` (task.service.ts):
`prisma.task.update({ where: { id: taskId }, data: updates })` — throws when
no row has that id, otherwise patches the row and returns it. -/
def updateTaskService (s : Store) (taskId : String) (p : TaskPatch) :
    Except StoreError (Task × Store) :=
  match s.tasks.find? (fun t => t.id == taskId) with
  | none => .error .recordNotFound
  | some t =>
    .ok (applyPatch t p,
      { s with tasks :=
          s.tasks.map (fun u => if u.id == taskId then applyPatch u p else u) })

/-- `deleteTaskService` (task.service.ts):
`prisma.task.delete({ where: { id: taskId } })` — throws when no row has that
id, otherwise removes the row and returns it. -/
def deleteTaskService (s : Store) (taskId : String) :
    Except StoreError (Task × Store) :=
  match s.tasks.find? (fun t => t.id == taskId) with
  | none => .error .recordNotFound
  | some t =>
    .ok (t, { s with tasks := s.tasks.filter (fun u => ¬ u.id == taskId) })

/-- Hexadecimal digit, as in the zod uuid regex character class. -/
def isHexDigit (c : Char) : Bool :=
  c.isDigit || ('a' ≤ c && c ≤ 'f') || ('A' ≤ c && c ≤ 'F')

/-- `z.string().uuid()` (shared schemas): the 8-4-4-4-12 hexadecimal shape. -/
def isUuid (s : String) : Bool :=
  match s.splitOn "-" with
  | [a, b, c, d, e] =>
    a.length == 8 && b.length == 4 && c.length == 4 && d.length == 4 &&
      e.length == 12 &&
      (a.data ++ b.data ++ c.data ++ d.data ++ e.data).all isHexDigit
  | _ => false

/-- A JSON request body for the task endpoints, as consumed by the zod
schemas: each recognised field is present or absent (unknown fields are
stripped by zod and so not represented). -/
structure TaskBody where
  userId : Option String := none
  title : Option String := none
  description : Option String := none
deriving DecidableEq, Repr

/-- `getTasks` handler (task.controller.ts, GET /tasks, runs after
`verifyAuth`): parse `{ userId }` from the body via `getTasksSchema` (400 on
failure), then 200 with `getTasksService userId`.  The authenticated `user`
attached to the request is a parameter but is never consulted. -/
def getTasks (user : SignedUser) (body : TaskBody) (s : Store) :
    Response × Store × List Eff :=
  match body.userId with
  | none => ((400, .errorMsg "Invalid request"), s, [])
  | some uid =>
    ((200, .taskList (getTasksService s uid)), s, [.callGetTasksService])

/-- `createTask` handler (task.controller.ts, POST /tasks, runs after
`verifyAuth`): parse `{ userId, title, description? }` from the body via
`createTaskSchema` (400 on failure), then 201 with the created task.  The
owner is the body's `userId`; the authenticated `user` is never consulted. -/
def createTask (user : SignedUser) (body : TaskBody) (s : Store) :
    Response × Store × List Eff :=
  match body.userId, body.title with
  | some uid, some title =>
    let (t, s') := createTaskService s uid title body.description
    ((201, .task t), s', [.callCreateTaskService])
  | _, _ => ((400, .errorMsg "Invalid request"), s, [])

/-- `updateTask` handler (task.controller.ts, PUT /tasks/:id, runs after
`verifyAuth`): validate the path id via `updateTaskParamsSchema` (uuid) and
the body via `updateTaskSchema` (title required, description optional;
`isComplete` is not part of the schema), 400 on either failure; invoke the
update service with the validated fields, mapping its throw to the catch-all
400.  The authenticated `user` is never consulted. -/
def updateTask (user : SignedUser) (paramsId : String) (body : TaskBody)
    (s : Store) : Response × Store × List Eff :=
  if isUuid paramsId then
    match body.title with
    | none => ((400, .errorMsg "Invalid request"), s, [])
    | some title =>
      match updateTaskService s paramsId
          { title := some title, description := body.description,
            isComplete := none } with
      | .error _ => ((400, .errorMsg "Invalid request"), s, [.callUpdateTaskService])
      | .ok (t, s') => ((200, .task t), s', [.callUpdateTaskService])
  else
    ((400, .errorMsg "Invalid request"), s, [])

/-- `deleteTask` handler (task.controller.ts, DELETE /tasks/:id, runs after
`verifyAuth`): validate the path id via `deleteTaskSchema` (uuid, 400 on
failure); invoke the delete service, mapping its throw to the catch-all 400.
The authenticated `user` is never consulted. -/
def deleteTask (user : SignedUser) (paramsId : String) (s : Store) :
    Response × Store × List Eff :=
  if isUuid paramsId then
    match deleteTaskService s paramsId with
    | .error _ => ((400, .errorMsg "Invalid request"), s, [.callDeleteTaskService])
    | .ok (t, s') => ((200, .task t), s', [.callDeleteTaskService])
  else
    ((400, .errorMsg "Invalid request"), s, [])

/-- Outcome of the `verifyAuth` middleware: a response sent without calling
`next()`, a call to `next()` with the user attached to the request, or an
uncaught rejection of the async middleware (no response is ever sent in that
case — Express 4 does not handle a rejected middleware promise). -/
inductive AuthOutcome where
  | response (r : Response)
  | proceed (u : SignedUser)
  | thrown (e : JwtError)
deriving DecidableEq, Repr

/-- `verifyAuth` middleware (task.controller.ts): 401 when the Authorization
header is absent; otherwise `verifyJwtService` on the raw header value — its
throw is NOT caught, so a jsonwebtoken error becomes an uncaught rejection;
401 when it resolves to `undefined` (subject no longer in the store); else
attach the user and call `next()`. -/
def verifyAuth (kp : KeyPair) (now : Nat) (s : Store)
    (authHeader : Option Token) : AuthOutcome :=
  match authHeader with
  | none => .response (401, .errorMsg "Authentication required")
  | some t =>
    match verifyJwtService kp now s t with
    | .error e => .thrown e
    | .ok none => .response (401, .errorMsg "Invalid or expired token")
    | .ok (some u) => .proceed u

/-- Result of a full task route (`router.use(verifyAuth)` then the handler):
either a response with the resulting store and effect trace, or an uncaught
rejection (store untouched, no service invoked). -/
inductive RouteResult where
  | ok (r : Response) (s : Store) (effs : List Eff)
  | thrown (e : JwtError) (s : Store) (effs : List Eff)
deriving DecidableEq, Repr

/-- The task route pipeline (task.routes.ts): run `verifyAuth`; on a
middleware response stop there; on an uncaught rejection no handler runs; on
`next()` run the handler with the attached user. -/
def taskRoute (handler : SignedUser → Store → Response × Store × List Eff)
    (kp : KeyPair) (now : Nat) (s : Store) (authHeader : Option Token) :
    RouteResult :=
  match verifyAuth kp now s authHeader with
  | .response r => .ok r s []
  | .thrown e => .thrown e s []
  | .proceed u =>
    let (r, s', effs) := handler u s
    .ok r s' effs

/-! ## Concrete fixtures used by counterexamples and witnesses -/

def kp0 : KeyPair := { priv := "priv0", pub := "pub0" }

def userU1 : User := { id := "u1", username := "alice", password := bcryptHash "Passw0rd!" }

def userU2 : User := { id := "u2", username := "bob_99", password := bcryptHash "S3cret!pw" }

def tok1 : Token :=
  { claims := { sub := "u1", exp := 3600 }, alg := .RS256,
    sig := mkSig kp0.priv .RS256 { sub := "u1", exp := 3600 } }

/-- A request context authenticated as user `u1`. -/
def su1 : SignedUser := { id := "u1", username := "alice", token := tok1 }

def taskU2 : Task :=
  { id := "t2", title := "Pay rent", description := none, isComplete := false,
    userId := "u2" }

/-- An empty store. -/
def s0 : Store := { users := [], tasks := [] }

/-- A store holding users `u1`/`u2` and one task owned by `u2`. -/
def s1 : Store :=
  { users := [userU1, userU2], tasks := [taskU2], nextUserId := 2, nextTaskId := 1 }

def expiredClaims : JwtClaims := { sub := "u1", exp := 1000 }

/-- A token with a valid RS256 signature whose expiry has elapsed by time 5000. -/
def expiredTok : Token :=
  { claims := expiredClaims, alg := .RS256, sig := mkSig kp0.priv .RS256 expiredClaims }

/-- An unexpired token whose signature was not produced with the private key. -/
def forgedTok : Token :=
  { claims := { sub := "u1", exp := 999999 }, alg := .RS256, sig := "forged" }

def bodyReg : AuthBody := { username := some "alice", password := some "Passw0rd!" }

def bodyNoUser : AuthBody := { username := some "charlie99", password := some "whatever123" }

def bodyWrongPw : AuthBody := { username := some "alice", password := some "WrongPass1!" }

/-! ## Helper lemmas -/

theorem genUserId_ne (s : Store) : genUserId s ≠ "" := by
  intro h
  have hlen := congrArg String.length h
  simp [genUserId, String.length_append] at hlen
  exact absurd hlen.1 (by decide)

/-- The token `signJwt` produces for a nonempty user id. -/
def signedToken (kp : KeyPair) (now : Nat) (uid : String) : Token :=
  { claims := { sub := uid, exp := now + 3600 }, alg := .RS256,
    sig := mkSig kp.priv .RS256 { sub := uid, exp := now + 3600 } }

theorem signJwt_ok (kp : KeyPair) (now : Nat) (uid : String) (h : uid ≠ "") :
    signJwt kp now uid = .ok (signedToken kp now uid) := by
  simp [signJwt, signedToken, h]

theorem jwtVerify_expired (kp : KeyPair) (now : Nat) (t : Token)
    (h : t.claims.exp ≤ now) : ∃ e, jwtVerify kp now t = Except.error e := by
  unfold jwtVerify
  split_ifs with h1 h2
  · exact ⟨_, rfl⟩
  · exact ⟨_, rfl⟩
  · exact ⟨_, rfl⟩

/-! ## Claim theorems -/

/-- Claim C1, counterexample: a caller authenticated as `u1` sends a create
request whose body names `u2` as owner; the persisted row's owner is `u2`,
not the verified caller's id. -/
theorem createTask_owner_spoofable :
    su1.id = "u1" ∧
    (createTask su1 { userId := some "u2", title := some "Buy milk" } s1).1 =
      (201, .task { id := "task-1", title := "Buy milk", description := none,
                    isComplete := false, userId := "u2" }) ∧
    ({ id := "task-1", title := "Buy milk", description := none,
       isComplete := false, userId := "u2" } : Task) ∈
      (createTask su1 { userId := some "u2", title := some "Buy milk" } s1).2.1.tasks ∧
    ("u2" : String) ≠ su1.id := by
  decide

/-- Claim C1, amended: the owner recorded on the persisted task row equals the
client-supplied `userId` field of the request body; the verified caller's
identity is never consulted by the create handler. -/
theorem createTask_owner_from_body (user : SignedUser) (s : Store)
    (uid titl : String) (desc : Option String) :
    ∃ t s', createTask user ⟨some uid, some titl, desc⟩ s =
      ((201, .task t), s', [.callCreateTaskService]) ∧
      t.userId = uid ∧ s'.tasks = s.tasks ++ [t] :=
  ⟨_, _, rfl, rfl, rfl⟩

/-- Claim C2: a request with no Authorization header gets 401 and no service
runs; but a token that fails cryptographic verification (expired even with a
valid signature, or forged) makes `verifyJwtService` throw, the middleware has
no catch, and the outcome is an uncaught rejection — not the claimed 401. -/
theorem verifyAuth_uncaught_jwt_throw :
    (∀ (handler : SignedUser → Store → Response × Store × List Eff)
        (kp : KeyPair) (now : Nat) (s : Store),
      taskRoute handler kp now s none =
        .ok (401, .errorMsg "Authentication required") s []) ∧
    sigOk kp0 expiredTok = true ∧
    taskRoute (fun u s => getTasks u { userId := some "u1" } s) kp0 5000 s1
        (some expiredTok) = .thrown .tokenExpired s1 [] ∧
    verifyAuth kp0 5000 s1 (some expiredTok) = .thrown .tokenExpired ∧
    verifyAuth kp0 5000 s1 (some forgedTok) = .thrown .invalidSignature :=
  ⟨fun handler kp now s => rfl, by decide, by decide, by decide, by decide⟩

/-- Claim C3, counterexample: a caller authenticated as `u1` sends a list
request whose body names `u2`; the 200 response body is `u2`'s task list,
while the caller `u1` owns no task at all. -/
theorem getTasks_not_scoped_to_caller :
    su1.id = "u1" ∧
    getTasks su1 { userId := some "u2" } s1 =
      ((200, .taskList [taskU2]), s1, [.callGetTasksService]) ∧
    taskU2.userId = "u2" ∧
    getTasksService s1 su1.id = [] := by
  decide

/-- Claim C3, amended: the 200 response body is exactly the list of tasks
owned by the `userId` field of the request body; that list contains only
tasks of that owner, and a task created with owner `uid` appears in the list
for `uid` and in no other owner's list. -/
theorem getTasks_scoped_by_body_userId (user : SignedUser) (s : Store)
    (uid v titl : String) (desc bt bd : Option String) (hv : v ≠ uid) :
    getTasks user { userId := some uid, title := bt, description := bd } s =
      ((200, .taskList (getTasksService s uid)), s, [.callGetTasksService]) ∧
    (∀ t ∈ getTasksService s uid, t.userId = uid) ∧
    (createTaskService s uid titl desc).1 ∈
      getTasksService (createTaskService s uid titl desc).2 uid ∧
    (createTaskService s uid titl desc).1 ∉
      getTasksService (createTaskService s uid titl desc).2 v := by
  refine ⟨rfl, ?_, ?_, ?_⟩
  · intro t ht
    have h := (List.mem_filter.mp ht).2
    simpa using h
  · refine List.mem_filter.mpr ⟨?_, ?_⟩
    · simp [createTaskService]
    · simp [createTaskService]
  · intro hmem
    have h := (List.mem_filter.mp hmem).2
    simp [createTaskService] at h
    exact hv h.symm

/-- Claim C3, witness: the amended statement instantiated on the concrete
store `s1`. -/
theorem getTasks_scoped_by_body_userId_witness :
    ("u2" : String) ≠ "u1" ∧
    (getTasks su1 { userId := some "u1", title := none, description := none } s1 =
      ((200, .taskList (getTasksService s1 "u1")), s1, [.callGetTasksService]) ∧
    (∀ t ∈ getTasksService s1 "u1", t.userId = "u1") ∧
    (createTaskService s1 "u1" "Buy milk" none).1 ∈
      getTasksService (createTaskService s1 "u1" "Buy milk" none).2 "u1" ∧
    (createTaskService s1 "u1" "Buy milk" none).1 ∉
      getTasksService (createTaskService s1 "u1" "Buy milk" none).2 "u2") :=
  ⟨by decide,
   getTasks_scoped_by_body_userId su1 s1 "u1" "u2" "Buy milk" none none none (by decide)⟩

/-- Claim C4: every task handler's response, resulting store and effect trace
are identical under any two authenticated identities presenting the same body
and path parameters — the attached identity is never consumed. -/
theorem handlers_ignore_authenticated_identity (u1 u2 : SignedUser)
    (body : TaskBody) (paramsId : String) (s : Store) :
    getTasks u1 body s = getTasks u2 body s ∧
    createTask u1 body s = createTask u2 body s ∧
    updateTask u1 paramsId body s = updateTask u2 paramsId body s ∧
    deleteTask u1 paramsId s = deleteTask u2 paramsId s :=
  ⟨rfl, rfl, rfl, rfl⟩

/-- Claim C5: for a schema-valid registration body, a free username yields 201
with `{id, username, token}` and exactly one new, hashed user row; a taken
username yields 409 with the store unchanged and neither the hash nor the
create effect performed. -/
theorem register_unique_username (kp : KeyPair) (now : Nat) (s : Store)
    (b : AuthBody) (un pw : String)
    (hparse : parseRegisterBody b = some (un, pw)) :
    (∀ u, findUserByUsername s un = some u →
      register kp now s b = ((409, .errorMsg "User already exists"), s, [])) ∧
    (findUserByUsername s un = none →
      ∃ su, register kp now s b =
        ((201, .signedUser su),
          { s with
            users := s.users ++
              [{ id := genUserId s, username := un, password := bcryptHash pw }],
            nextUserId := s.nextUserId + 1 },
          [.hashPassword, .createUserRow]) ∧
        su.id = genUserId s ∧ su.username = un) := by
  constructor
  · intro u hu
    simp [register, hparse, registerService, hu]
  · intro hn
    refine ⟨{ id := genUserId s, username := un,
              token := signedToken kp now (genUserId s) }, ?_, rfl, rfl⟩
    simp [register, hparse, registerService, hn,
      signJwt_ok kp now (genUserId s) (genUserId_ne s)]

/-- Claim C5, witness: registering `alice` on the empty store succeeds;
registering `alice` again on a store already holding her yields 409 with no
change. -/
theorem register_unique_username_witness :
    parseRegisterBody bodyReg = some ("alice", "Passw0rd!") ∧
    findUserByUsername s0 "alice" = none ∧
    (∃ su, register kp0 0 s0 bodyReg =
        ((201, .signedUser su),
          { s0 with
            users := s0.users ++
              [{ id := genUserId s0, username := "alice",
                 password := bcryptHash "Passw0rd!" }],
            nextUserId := s0.nextUserId + 1 },
          [.hashPassword, .createUserRow]) ∧
        su.id = genUserId s0 ∧ su.username = "alice") ∧
    findUserByUsername s1 "alice" = some userU1 ∧
    register kp0 0 s1 bodyReg = ((409, .errorMsg "User already exists"), s1, []) :=
  ⟨by decide, by decide,
   (register_unique_username kp0 0 s0 bodyReg "alice" "Passw0rd!" (by decide)).2
     (by decide),
   by decide,
   (register_unique_username kp0 0 s1 bodyReg "alice" "Passw0rd!" (by decide)).1
     userU1 (by decide)⟩

/-- Claim C6: for a schema-valid login body, the response when the username
does not exist and the response when it exists but the password fails
verification are the same 400 with the same generic body. -/
theorem authenticate_failure_indistinguishable (kp : KeyPair) (now : Nat)
    (s : Store) (b : AuthBody) (un pw : String)
    (hparse : parseAuthBody b = some (un, pw)) :
    (findUserByUsername s un = none →
      authenticate kp now s b = (400, .errorMsg "Failed to authenticate user")) ∧
    (∀ u, findUserByUsername s un = some u →
      bcryptCompare pw u.password = false →
      authenticate kp now s b = (400, .errorMsg "Failed to authenticate user")) := by
  constructor
  · intro hn
    simp [authenticate, hparse, authService, hn]
  · intro u hu hc
    simp [authenticate, hparse, authService, hu, hc]

/-- Claim C6, witness: an unknown username and a wrong password against
`alice` produce the identical generic 400 response. -/
theorem authenticate_failure_indistinguishable_witness :
    parseAuthBody bodyNoUser = some ("charlie99", "whatever123") ∧
    findUserByUsername s1 "charlie99" = none ∧
    authenticate kp0 0 s1 bodyNoUser =
      (400, .errorMsg "Failed to authenticate user") ∧
    parseAuthBody bodyWrongPw = some ("alice", "WrongPass1!") ∧
    findUserByUsername s1 "alice" = some userU1 ∧
    bcryptCompare "WrongPass1!" userU1.password = false ∧
    authenticate kp0 0 s1 bodyWrongPw =
      (400, .errorMsg "Failed to authenticate user") :=
  ⟨by decide, by decide,
   (authenticate_failure_indistinguishable kp0 0 s1 bodyNoUser "charlie99"
     "whatever123" (by decide)).1 (by decide),
   by decide, by decide, by decide,
   (authenticate_failure_indistinguishable kp0 0 s1 bodyWrongPw "alice"
     "WrongPass1!" (by decide)).2 userU1 (by decide) (by decide)⟩

/-- Claim C7: signing a nonempty user id that exists in the store produces a
token that verification accepts before the one-hour expiry, resolving to that
same subject. -/
theorem sign_verify_roundtrip (kp : KeyPair) (s : Store) (now now' : Nat)
    (u : String) (usr : User) (hne : u ≠ "")
    (hfind : findUserById s u = some usr) (hexp : now' < now + 3600) :
    ∃ t su, signJwt kp now u = .ok t ∧
      verifyJwtService kp now' s t = .ok (some su) ∧ su.id = u := by
  have h0 : List.find? (fun x : User => x.id == u) s.users = some usr := hfind
  have hid0 := List.find?_some h0
  have hid : usr.id = u := by simpa using hid0
  have hnotexp : ¬ (now + 3600 ≤ now') := by omega
  refine ⟨signedToken kp now u,
    ⟨usr.id, usr.username, signedToken kp now u⟩,
    signJwt_ok kp now u hne, ?_, hid⟩
  simp [verifyJwtService, jwtVerify, sigOk, signedToken, hfind, hnotexp]

/-- Claim C7, witness: the round trip instantiated for user `u1` of the
concrete store, verified 100 seconds after issuance. -/
theorem sign_verify_roundtrip_witness :
    ("u1" : String) ≠ "" ∧ findUserById s1 "u1" = some userU1 ∧ 100 < 0 + 3600 ∧
    (∃ t su, signJwt kp0 0 "u1" = .ok t ∧
      verifyJwtService kp0 100 s1 t = .ok (some su) ∧ su.id = "u1") :=
  ⟨by decide, by decide, by decide,
   sign_verify_roundtrip kp0 s1 0 100 "u1" userU1 (by decide) (by decide) (by decide)⟩

/-- Claim C8: a token whose expiry has elapsed is rejected by
`verifyJwtService` (the jsonwebtoken layer throws) regardless of its
signature; and a token resolving to a user is accepted only when its
signature verifies against the key pair and its expiry has not elapsed. -/
theorem verify_rejects_expired_token (kp : KeyPair) (now : Nat) (s : Store)
    (t : Token) :
    (t.claims.exp ≤ now → ∃ e, verifyJwtService kp now s t = .error e) ∧
    (∀ su, verifyJwtService kp now s t = .ok (some su) →
      sigOk kp t = true ∧ now < t.claims.exp) := by
  constructor
  · intro hexp
    obtain ⟨e, he⟩ := jwtVerify_expired kp now t hexp
    exact ⟨e, by simp [verifyJwtService, he]⟩
  · intro su hok
    have hj : ∃ c, jwtVerify kp now t = .ok c := by
      unfold verifyJwtService at hok
      cases h : jwtVerify kp now t with
      | error e => rw [h] at hok; cases hok
      | ok c => exact ⟨c, rfl⟩
    obtain ⟨c, hc⟩ := hj
    unfold jwtVerify at hc
    split_ifs at hc with h1 h2 h3
    all_goals try cases hc
    exact ⟨h2, by omega⟩

/-- Claim C8, witness: the expired-but-validly-signed concrete token is
rejected at time 5000. -/
theorem verify_rejects_expired_token_witness :
    expiredTok.claims.exp ≤ 5000 ∧ sigOk kp0 expiredTok = true ∧
    (∃ e, verifyJwtService kp0 5000 s1 expiredTok = .error e) :=
  ⟨by decide, by decide,
   (verify_rejects_expired_token kp0 5000 s1 expiredTok).1 (by decide)⟩

/-- Claim C9: for an existing task, `updateTaskService` accepts any partial
patch of `{title?, description?, isComplete?}`; patching only `isComplete` to
`true` yields a row that appears, completed and with title and description
unchanged, in the owner's task list. -/
theorem update_partial_patch_roundtrip (s : Store) (taskId : String) (t : Task)
    (hfind : findTaskById s taskId = some t) :
    (∀ p, ∃ r, updateTaskService s taskId p = .ok r) ∧
    (∃ t' s', updateTaskService s taskId
        { title := none, description := none, isComplete := some true } =
          .ok (t', s') ∧
      t'.isComplete = true ∧ t'.title = t.title ∧ t'.description = t.description ∧
      t'.userId = t.userId ∧ t' ∈ getTasksService s' t.userId) := by
  have hfind' : s.tasks.find? (fun x => x.id == taskId) = some t := hfind
  have hmem : t ∈ s.tasks := List.mem_of_find?_eq_some hfind'
  have hid0 := List.find?_some hfind'
  have hid : t.id = taskId := by simpa using hid0
  constructor
  · intro p
    refine ⟨(applyPatch t p,
        { s with tasks :=
            s.tasks.map (fun u => if u.id == taskId then applyPatch u p else u) }), ?_⟩
    simp [updateTaskService, hfind']
  · refine ⟨applyPatch t { title := none, description := none, isComplete := some true },
      { s with tasks := s.tasks.map (fun u => if u.id == taskId then
          applyPatch u { title := none, description := none, isComplete := some true }
          else u) },
      by simp [updateTaskService, hfind'], by simp [applyPatch], by simp [applyPatch],
      by simp [applyPatch], by simp [applyPatch], ?_⟩
    refine List.mem_filter.mpr ⟨?_, by simp [applyPatch]⟩
    have hmap := List.mem_map_of_mem
      (f := fun u => if u.id == taskId then
        applyPatch u { title := none, description := none, isComplete := some true }
        else u) hmem
    simpa [hid] using hmap

/-- Claim C9, witness: completing the concrete task `t2` leaves its title and
description unchanged and shows it completed in `u2`'s list. -/
theorem update_partial_patch_roundtrip_witness :
    findTaskById s1 "t2" = some taskU2 ∧
    ((∀ p, ∃ r, updateTaskService s1 "t2" p = .ok r) ∧
    (∃ t' s', updateTaskService s1 "t2"
        { title := none, description := none, isComplete := some true } =
          .ok (t', s') ∧
      t'.isComplete = true ∧ t'.title = taskU2.title ∧
      t'.description = taskU2.description ∧
      t'.userId = taskU2.userId ∧ t' ∈ getTasksService s' taskU2.userId)) :=
  ⟨by decide, update_partial_patch_roundtrip s1 "t2" taskU2 (by decide)⟩

/-- Claim C10, counterexample: an authenticated create request with
`title: ""` is not rejected — it returns 201 and inserts a row with the empty
title, because `createTaskSchema` only requires `title` to be a string. -/
theorem createTask_empty_title_accepted :
    (createTask su1 { userId := some "u1", title := some "" } s1).1 =
      (201, .task { id := "task-1", title := "", description := none,
                    isComplete := false, userId := "u1" }) ∧
    (createTask su1 { userId := some "u1", title := some "" } s1).2.1.tasks =
      s1.tasks ++ [{ id := "task-1", title := "", description := none,
                     isComplete := false, userId := "u1" }] := by
  decide

/-- Claim C10, amended: a create request with a missing `title` (or missing
`userId`) is rejected with 400, the store unchanged and no service invoked;
an empty-string `title` passes the schema and a row with the empty title is
inserted with a 201 response. -/
theorem createTask_title_validation (user : SignedUser) (s : Store)
    (uid : String) (bt bd : Option String) :
    createTask user { userId := some uid, title := none, description := bd } s =
      ((400, .errorMsg "Invalid request"), s, []) ∧
    createTask user { userId := none, title := bt, description := bd } s =
      ((400, .errorMsg "Invalid request"), s, []) ∧
    (∃ t s', createTask user { userId := some uid, title := some "", description := bd } s =
        ((201, .task t), s', [.callCreateTaskService]) ∧
      t.title = "" ∧ s'.tasks = s.tasks ++ [t]) := by
  refine ⟨rfl, ?_, ⟨_, _, rfl, rfl, rfl⟩⟩
  cases bt <;> rfl

end TaskApp
